import Mathlib

/-!
# AksCustomAutoscaler — shallow embedding of `src/scale.py`

This file embeds the control logic of `scale.py` (the scaling decision
engine `aks_scaler`, the cluster-state readers `get_number_of_pods_in_phase`,
`get_nodes_in_pool`, `get_pods_running_on_node`, the scale-to-zero helper
`aks_scale_pool_to_0` and the reconciliation loop in `main`) and proves the
spec's claims about it.

Modelling conventions:
* Python `int` is `Int`; pod/node counts coming from `len` are `Nat` cast
  to `Int` where compared with configuration integers.
* `datetime` values are integers (seconds); `timedelta.seconds` of a
  difference `d` is `d % 86400` with Python's floor-modulo, i.e. `Int.emod`,
  which always lies in `[0, 86400)`.
* Python `dict.get` over node labels is `List.lookup` returning `Option`.
* Python's `sorted` is modelled by the stable `List.insertionSort (· ≤ ·)`.
* Python's `list(set(l))` yields the distinct elements of `l` in an order
  determined by string hashing, which CPython does not fix (hash
  randomisation).  It is modelled by a function parameter `setOrder`
  constrained by `ValidSetOrder`: the output has no duplicates and has
  exactly the members of the input, with the order left open.
* Side effects (cordon patches, node deletions, resize submissions,
  scale-to-zero CLI invocations) are recorded in the returned
  `ScalerResult`.  Exceptions are the `Except` error channel: the
  `ValueError "Unknown strategy"` of line 165 and the `UnboundLocalError`
  raised at line 168 when `node_to_remove` was never assigned (the
  `suppress(IndexError)` blocks skip the assignment on an empty list).
* The drain-wait `while` loop polls once per second (`sleep(1)`), so poll
  iteration `k` happens `k` seconds after `scaling_start_time`; the loop is
  run on explicit fuel (the number of polls observed), with `none` meaning
  the real loop is still running after that many polls.
-/

/-- One Kubernetes node as seen by `list_node`: a name and its labels. -/
structure KNode where
  name : String
  labels : List (String × String)
deriving DecidableEq, Repr

/-- One pod as seen by `list_namespaced_pod`: only its status phase matters. -/
structure KPod where
  phase : String
deriving DecidableEq, Repr

/-- The AKS agent-pool snapshot fields read or written by `aks_scaler`. -/
structure AgentPool where
  name : String
  count : Int
  enable_auto_scaling : Bool
  provisioning_state : String
deriving DecidableEq, Repr

/-- The configuration fields of `Config` used by the scaling logic. -/
structure Config where
  MAX_POD_QUEUE : Int
  DELAY_BEFORE_SCALE_UP : Int
  DELAY_BEFORE_SCALE_DOWN : Int
  TIMEOUT : Int
  DEFAULT_DOWN_SCALING_STRATEGY : String
deriving DecidableEq, Repr

/-- Python `timedelta(seconds := d).seconds`: the timedelta is normalised to
`days` plus a seconds component in `[0, 86400)`, so the seconds component of a
difference of `d` seconds is the floor-modulo `d % 86400`. -/
def tdSeconds (d : Int) : Int := d % 86400

/-- `list(set(l))` only guarantees: no duplicates, same members as `l`.
The iteration order of a CPython `set` of strings is hash-dependent and not
fixed by the language, so the embedding takes the order as a parameter
satisfying exactly this contract. -/
def ValidSetOrder (f : List String → List String) : Prop :=
  ∀ l : List String, (f l).Nodup ∧ ∀ x, x ∈ f l ↔ x ∈ l

/-- `get_number_of_pods_in_phase` (scale.py:88-99): the number of pods of the
namespace whose `status.phase` equals `pod_phase`. -/
def get_number_of_pods_in_phase (pods : List KPod) (pod_phase : String) : Nat :=
  (pods.filter (fun pod => pod.phase = pod_phase)).length

/-- `get_nodes_in_pool` (scale.py:102-113): filter the node inventory by the
`agentpool` label equalling the pool's name, take the names, sort them, then
pass the sorted list through `list(set(...))` — which is what the source
does and what destroys the sort. -/
def get_nodes_in_pool (setOrder : List String → List String)
    (nodes : List KNode) (agent_pool : AgentPool) : List String :=
  let nodes_in_pool :=
    ((nodes.filter
        (fun node => node.labels.lookup "agentpool" = some agent_pool.name)).map
      KNode.name).insertionSort (· ≤ ·)
  setOrder nodes_in_pool

/-- Exceptions that `aks_scaler` itself can raise. -/
inductive ScalerErr where
  /-- `raise ValueError("Unknown strategy")` at scale.py:165. -/
  | valueError : ScalerErr
  /-- Reading `node_to_remove` at scale.py:168 when no assignment happened
  (empty candidate list, `IndexError` suppressed at scale.py:159-163). -/
  | unboundLocal : ScalerErr
  /-- The drain-wait loop is still running after the supplied number of
  polls (the real code would still be looping). -/
  | stillDraining : ScalerErr
deriving DecidableEq, Repr

/-- The observable outcome of one `aks_scaler` call: the final in-memory
pool, every side effect issued, and the returned timestamp. -/
structure ScalerResult where
  pool : AgentPool
  /-- Counts submitted through `client.agent_pools.create_or_update`
  (scale.py:193-196), in order. -/
  resizeCalls : List Int
  /-- Number of `aks_scale_pool_to_0` invocations (scale.py:184). -/
  scaleToZeroCalls : Nat
  /-- Nodes cordoned via `patch_node` (scale.py:171). -/
  cordoned : List String
  /-- Nodes deleted via `delete_node` (scale.py:179). -/
  deleted : List String
  /-- The returned datetime (scale.py:198-201). -/
  returnedTime : Int
deriving DecidableEq, Repr

/-- The candidate selection of scale.py:158-165: `latest` takes the last
element of `nodes_pre_scale`, `oldest` the first, any other strategy raises
`ValueError("Unknown strategy")`.  On an empty list the `IndexError` of the
subscript is suppressed and the assignment is skipped, so the local stays
unbound: `.ok none` records that. -/
def selectCandidate (strategy : String) (nodes_pre_scale : List String) :
    Except ScalerErr (Option String) :=
  if strategy = "latest" then
    .ok nodes_pre_scale.getLast?
  else if strategy = "oldest" then
    .ok nodes_pre_scale.head?
  else
    .error .valueError

/-- The drain-wait `while` loop (scale.py:172-176), polling from iteration
`k`: it keeps looping while the node still has qualifying pods and the
seconds component of the elapsed time is below `TIMEOUT`, and returns the
iteration at which it exited (`none` if the fuel ran out first). -/
def drainLoop (podsOnNode : Nat → List String) (timeout : Int) :
    Nat → Nat → Option Nat
  | 0, _ => none
  | fuel + 1, k =>
    if (podsOnNode k).length > 0 ∧ ((k : Int) % 86400) < timeout then
      drainLoop podsOnNode timeout fuel (k + 1)
    else
      some k

/-- The tail of `aks_scaler` (scale.py:193-201): submit `create_or_update`
exactly when the bookkept post-scale size differs from the pre-scale size
(the submitted parameters carry the in-memory pool), then return the new
event time if one was recorded, else the input one. -/
def finishScaler (pool : AgentPool) (pre_scale_pool_size post_scale_pool_size : Int)
    (scaling_event_time : Option Int) (last_scaling_event_time : Int)
    (scaleToZeroCalls : Nat) (cordoned deleted : List String) : ScalerResult :=
  { pool := pool
    resizeCalls :=
      if post_scale_pool_size ≠ pre_scale_pool_size then [pool.count] else []
    scaleToZeroCalls := scaleToZeroCalls
    cordoned := cordoned
    deleted := deleted
    returnedTime :=
      match scaling_event_time with
      | some t => t
      | none => last_scaling_event_time }

/-- `aks_scaler` (scale.py:116-201).  Environment inputs: `setOrder` (the
set iteration order used by `get_nodes_in_pool`), `nodes` (the inventory),
`pods` (the namespace's pods, already filtered to the configured phase by
name matching), `podsOnNode node k` (what `get_pods_running_on_node`
reports for `node` at poll iteration `k`), `drainFuel` (how many drain
polls we observe), `now` (the value of `datetime.now`, in seconds), and the
pool, timestamp and configuration arguments of the source function. -/
def aks_scaler (setOrder : List String → List String)
    (nodes : List KNode) (pods : List KPod)
    (podsOnNode : String → Nat → List String) (drainFuel : Nat)
    (agent_pool : AgentPool) (last_scaling_event_time : Int) (now : Int)
    (config_params : Config) (pod_phase : String) :
    Except ScalerErr ScalerResult :=
  let post_scale_pool_size := agent_pool.count
  if agent_pool.enable_auto_scaling then
    .ok (finishScaler agent_pool agent_pool.count post_scale_pool_size none
      last_scaling_event_time 0 [] [])
  else if agent_pool.provisioning_state ≠ "Succeeded" then
    .ok (finishScaler agent_pool agent_pool.count post_scale_pool_size none
      last_scaling_event_time 0 [] [])
  else
    let nodes_pre_scale := get_nodes_in_pool setOrder nodes agent_pool
    let pre_scale_pool_size := agent_pool.count
    let queued_pods : Int := get_number_of_pods_in_phase pods pod_phase
    if queued_pods > config_params.MAX_POD_QUEUE then
      if tdSeconds (last_scaling_event_time - now) >
          config_params.DELAY_BEFORE_SCALE_UP then
        let pool := { agent_pool with count := agent_pool.count + 1 }
        .ok (finishScaler pool pre_scale_pool_size pool.count (some now)
          last_scaling_event_time 0 [] [])
      else
        .ok (finishScaler agent_pool pre_scale_pool_size post_scale_pool_size
          none last_scaling_event_time 0 [] [])
    else if queued_pods < config_params.MAX_POD_QUEUE then
      match selectCandidate config_params.DEFAULT_DOWN_SCALING_STRATEGY
          nodes_pre_scale with
      | .error e => .error e
      | .ok none =>
        -- scale.py:168 reads the never-assigned local: UnboundLocalError.
        .error .unboundLocal
      | .ok (some node_to_remove) =>
        -- the bound value is a node name, never `None`, so the
        -- `node_to_remove is not None` test passes.
        if tdSeconds (last_scaling_event_time - now) >
            config_params.DELAY_BEFORE_SCALE_DOWN then
          match drainLoop (podsOnNode node_to_remove) config_params.TIMEOUT
              drainFuel 0 with
          | none => .error .stillDraining
          | some _ =>
            -- scale.py:179: delete_node runs unconditionally after the loop.
            if agent_pool.count > 1 then
              let pool := { agent_pool with count := agent_pool.count - 1 }
              .ok (finishScaler pool pre_scale_pool_size pool.count (some now)
                last_scaling_event_time 0 [node_to_remove] [node_to_remove])
            else
              .ok (finishScaler agent_pool pre_scale_pool_size agent_pool.count
                (some now) last_scaling_event_time 1 [node_to_remove]
                [node_to_remove])
        else
          .ok (finishScaler agent_pool pre_scale_pool_size post_scale_pool_size
            none last_scaling_event_time 0 [] [])
    else
      .ok (finishScaler agent_pool pre_scale_pool_size post_scale_pool_size
        none last_scaling_event_time 0 [] [])

/-- The environment one tick of `main`'s `while True` loop runs against
(scale.py:245-256): the outcome of `client.agent_pools.get` (which may
raise) and the cluster state that `aks_scaler` will observe. -/
structure TickEnv where
  fetch : Except Unit AgentPool
  setOrder : List String → List String
  nodes : List KNode
  pods : List KPod
  podsOnNode : String → Nat → List String
  drainFuel : Nat
  now : Int

/-- One iteration of `main`'s loop body (scale.py:246-255): fetch the agent
pool and run `aks_scaler` on `last_scaling_event_time or scaler_start_time`;
the assignment to `last_scaling_event_time` happens only when `aks_scaler`
returns, so any exception (from the fetch or from the scaler) leaves it
unchanged — `except Exception` swallows the error and the loop goes on. -/
def mainTick (config_params : Config) (pod_phase : String)
    (scaler_start_time : Int) (last_scaling_event_time : Option Int)
    (env : TickEnv) : Option Int :=
  match env.fetch with
  | .error _ => last_scaling_event_time
  | .ok agent_pool =>
    match aks_scaler env.setOrder env.nodes env.pods env.podsOnNode
        env.drainFuel agent_pool
        (last_scaling_event_time.getD scaler_start_time) env.now
        config_params pod_phase with
    | .ok r => some r.returnedTime
    | .error _ => last_scaling_event_time

/-- `main`'s `while True` loop (scale.py:245-256) run against a finite trace
of tick environments: the timestamp is the only state threaded from one
iteration to the next. -/
def mainLoop (config_params : Config) (pod_phase : String)
    (scaler_start_time : Int) (last_scaling_event_time : Option Int)
    (envs : List TickEnv) : Option Int :=
  envs.foldl (mainTick config_params pod_phase scaler_start_time)
    last_scaling_event_time

/-! ## Concrete fixtures used by witnesses and counterexamples -/

/-- A concrete `list(set(...))` iteration order: `List.dedup`. -/
def dedupOrder : List String → List String := fun l => l.dedup

/-- A concrete `list(set(...))` iteration order that enumerates the distinct
elements in reverse — a hash order CPython is free to produce. -/
def revDedupOrder : List String → List String := fun l => l.dedup.reverse

/-- The source's default configuration values (scale.py:56-61). -/
def cfgFixture : Config :=
  { MAX_POD_QUEUE := 10
    DELAY_BEFORE_SCALE_UP := 100
    DELAY_BEFORE_SCALE_DOWN := 300
    TIMEOUT := 60
    DEFAULT_DOWN_SCALING_STRATEGY := "latest" }

/-- A pool of `c` nodes, autoscaling off, provisioning succeeded. -/
def poolFixture (c : Int) : AgentPool :=
  { name := "pool1"
    count := c
    enable_auto_scaling := false
    provisioning_state := "Succeeded" }

/-- Eleven queued pods: strictly above the default `MAX_POD_QUEUE = 10`. -/
def queuedPodsFixture : List KPod := List.replicate 11 { phase := "Queued" }

/-- A node of `pool1`. -/
def nodeFixture : KNode := { name := "n1", labels := [("agentpool", "pool1")] }

/-- A drain observation with no pods anywhere. -/
def noPodsOnNode : String → Nat → List String := fun _ _ => []

/-- A node named `b` in `pool1`. -/
def nodeB : KNode := { name := "b", labels := [("agentpool", "pool1")] }

/-- A node named `a` in `pool1`. -/
def nodeA : KNode := { name := "a", labels := [("agentpool", "pool1")] }

/-- A node whose labels have no `agentpool` key at all. -/
def unlabeledNode : KNode := { name := "x", labels := [("kubernetes.io/os", "linux")] }

/-- A drain observation in which one pod never leaves the node. -/
def stuckPodOnNode : Nat → List String := fun _ => ["stuck-pod"]

/-- The outcome of the concrete scale-up run used by several witnesses:
eleven queued pods against a threshold of ten, `last = 950`, `now = 1000`,
pool of three. -/
def upscaleRunResult : ScalerResult :=
  { pool := poolFixture 4
    resizeCalls := [4]
    scaleToZeroCalls := 0
    cordoned := []
    deleted := []
    returnedTime := 1000 }

/-- `dedupOrder` satisfies the `list(set(...))` contract. -/
lemma dedupOrder_valid : ValidSetOrder dedupOrder := by
  intro l
  exact ⟨l.nodup_dedup, fun x => List.mem_dedup⟩

/-- `revDedupOrder` satisfies the `list(set(...))` contract. -/
lemma revDedupOrder_valid : ValidSetOrder revDedupOrder := by
  intro l
  constructor
  · simpa [revDedupOrder] using l.nodup_dedup
  · intro x
    simp [revDedupOrder, List.mem_dedup]

/-- If the configured timeout is below one day (86400 seconds, the range of
`timedelta.seconds`), the drain-wait loop started at iteration
`k ≤ timeout.toNat` with enough fuel exits at the first iteration `j` at
which the while-condition fails, and `j` is at most `timeout.toNat`. -/
lemma drainLoop_exits (podsOnNode : Nat → List String) (timeout : Int)
    (ht : timeout < 86400) :
    ∀ fuel k, k ≤ timeout.toNat → timeout.toNat - k < fuel →
      ∃ j, drainLoop podsOnNode timeout fuel k = some j ∧ k ≤ j ∧
        j ≤ timeout.toNat ∧
        ¬ ((podsOnNode j).length > 0 ∧ ((j : Int) % 86400) < timeout) ∧
        ∀ i, k ≤ i → i < j →
          (podsOnNode i).length > 0 ∧ ((i : Int) % 86400) < timeout := by
  intro fuel
  induction fuel with
  | zero =>
    intro k hk hf
    omega
  | succ fuel ih =>
    intro k hk hf
    by_cases hc : (podsOnNode k).length > 0 ∧ ((k : Int) % 86400) < timeout
    · have hk86 : (k : Int) % 86400 = (k : Int) := by
        have := hc.2
        omega
      have hklt : k < timeout.toNat := by
        have := hc.2
        omega
      obtain ⟨j, hj, hkj, hjt, hstop, hmin⟩ := ih (k + 1) (by omega) (by omega)
      refine ⟨j, ?_, by omega, hjt, hstop, ?_⟩
      · simp only [drainLoop]
        rw [if_pos hc]
        exact hj
      · intro i h1 h2
        rcases Nat.eq_or_lt_of_le h1 with h | h
        · subst h
          exact hc
        · exact hmin i h h2
    · refine ⟨k, ?_, le_refl k, hk, hc, fun i h1 h2 => absurd h1 (by omega)⟩
      simp only [drainLoop]
      rw [if_neg hc]

/-- Helper for concrete string comparisons: `String.ltb` is well-founded
recursion which the kernel does not unfold, so concrete `≤` facts go through
the character lists. -/
lemma not_b_le_a : ¬ ("b" : String) ≤ "a" := by
  rw [String.le_iff_toList_le]
  decide

/-- C1: the claim says that with `queued > MAX_POD_QUEUE` but elapsed time
since the last event not exceeding `DELAY_BEFORE_SCALE_UP`, no mutation
occurs.  The code instead scales up: with `last = 950`, `now = 1000`
(elapsed 50 s < 100 s delay), eleven queued pods against a threshold of
ten, and a pool of three nodes, `(last - now).seconds = 86350 > 100`, so
the count becomes 4, one resize with count 4 is submitted and `now` is
returned instead of the input timestamp. -/
theorem scaleUp_fires_inside_delay_window :
    aks_scaler dedupOrder [] queuedPodsFixture noPodsOnNode 1 (poolFixture 3)
      950 1000 cfgFixture "Queued" =
    .ok { pool := poolFixture 4, resizeCalls := [4], scaleToZeroCalls := 0,
          cordoned := [], deleted := [], returnedTime := 1000 } := by
  rfl

/-- C5: the claim says that with `queued > MAX_POD_QUEUE` and elapsed time
since the last event exceeding `DELAY_BEFORE_SCALE_UP`, the count increases
by one and a resize is issued.  With `last = 13601`, `now = 100000`
(elapsed 86399 s, far above the 100 s delay), the code computes
`(last - now).seconds = 1 ≤ 100` and does nothing: the count stays 3, no
resize is submitted, and the input timestamp is returned. -/
theorem scaleUp_skipped_when_elapsed_near_day :
    aks_scaler dedupOrder [] queuedPodsFixture noPodsOnNode 1 (poolFixture 3)
      13601 100000 cfgFixture "Queued" =
    .ok { pool := poolFixture 3, resizeCalls := [], scaleToZeroCalls := 0,
          cordoned := [], deleted := [], returnedTime := 13601 } := by
  rfl

/-- C2: the claim says that entering the scale-down branch with an empty
node list skips removal and returns normally.  The code instead raises:
with no nodes and zero queued pods (strategy `latest`), the
`suppress(IndexError)` block leaves `node_to_remove` unassigned and the
`node_to_remove is not None` test at scale.py:168 raises
`UnboundLocalError`. -/
theorem scaleDown_empty_pool_raises_unbound_local :
    aks_scaler dedupOrder [] [] noPodsOnNode 1 (poolFixture 3) 0 1000
      cfgFixture "Queued" = .error .unboundLocal := by
  rfl

/-- C4 counterexample: the claim says that whenever the scale-to-zero path
is taken, a generic `create_or_update` follows carrying the same target
count (zero).  On a pool of count 1 taking the scale-down path (zero queued
pods, one node, delay satisfied, node drained immediately), the code calls
`aks_scale_pool_to_0` once, leaves the in-memory count at 1, and — since
`post_scale_pool_size == pre_scale_pool_size` — submits no
`create_or_update` at all. -/
theorem scaleToZero_without_generic_update :
    aks_scaler dedupOrder [nodeFixture] [] noPodsOnNode 1 (poolFixture 1)
      (-85000) 1000 cfgFixture "Queued" =
    .ok { pool := poolFixture 1, resizeCalls := [], scaleToZeroCalls := 1,
          cordoned := ["n1"], deleted := ["n1"], returnedTime := 1000 } := by
  rfl

/-- C3: the claim says `get_nodes_in_pool` returns matching names in a
deterministic sorted order.  The code sorts and then pipes the sorted list
through `list(set(...))`, whose iteration order CPython leaves to string
hashing: under the admissible set order that enumerates distinct elements
in reverse, the inventory `[b, a]` (both in `pool1`) comes back as
`["b", "a"]`, which is not sorted. -/
theorem nodes_in_pool_set_order_unsorted :
    ValidSetOrder revDedupOrder ∧
    get_nodes_in_pool revDedupOrder [nodeB, nodeA] (poolFixture 3) = ["b", "a"] ∧
    ¬ List.Sorted (· ≤ ·)
      (get_nodes_in_pool revDedupOrder [nodeB, nodeA] (poolFixture 3)) := by
  have hba : ¬ (['b'] : List Char) ≤ ['a'] := by decide
  have hab : (['a'] : List Char) < ['b'] := by decide
  have heval : get_nodes_in_pool revDedupOrder [nodeB, nodeA] (poolFixture 3) =
      ["b", "a"] := by
    simp [get_nodes_in_pool, nodeB, nodeA, poolFixture, revDedupOrder,
      List.insertionSort, List.orderedInsert, not_b_le_a, List.dedup,
      List.pwFilter, hba]
  refine ⟨revDedupOrder_valid, heval, ?_⟩
  rw [heval]
  simp [List.sorted_cons, not_b_le_a, hab]

/-- C8: for every pool snapshot with autoscaling enabled or with a
provisioning state other than `Succeeded`, `aks_scaler` performs no
mutation, issues no pool update, cordons and deletes nothing, and returns
the input `last_scaling_event_time` unchanged (scale.py:136-144). -/
theorem precondition_skip_no_mutation
    (setOrder : List String → List String) (nodes : List KNode)
    (pods : List KPod) (podsOnNode : String → Nat → List String)
    (drainFuel : Nat) (agent_pool : AgentPool)
    (last_scaling_event_time now : Int) (config_params : Config)
    (pod_phase : String)
    (h : agent_pool.enable_auto_scaling = true ∨
      agent_pool.provisioning_state ≠ "Succeeded") :
    aks_scaler setOrder nodes pods podsOnNode drainFuel agent_pool
      last_scaling_event_time now config_params pod_phase =
    .ok { pool := agent_pool, resizeCalls := [], scaleToZeroCalls := 0,
          cordoned := [], deleted := [],
          returnedTime := last_scaling_event_time } := by
  rcases h with h | h
  · simp [aks_scaler, h, finishScaler]
  · by_cases ha : agent_pool.enable_auto_scaling
    · simp [aks_scaler, ha, finishScaler]
    · simp [aks_scaler, ha, h, finishScaler]

/-- Witness for C8 at a concrete input: a pool with autoscaling on and 999
queued pods against a threshold of 10 is left untouched. -/
theorem precondition_skip_no_mutation_witness :
    ({ poolFixture 3 with enable_auto_scaling := true }.enable_auto_scaling = true ∨
      { poolFixture 3 with enable_auto_scaling := true }.provisioning_state ≠ "Succeeded") ∧
    aks_scaler dedupOrder [] (List.replicate 999 { phase := "Queued" }) noPodsOnNode 1
      { poolFixture 3 with enable_auto_scaling := true } 42 1000 cfgFixture "Queued" =
    .ok { pool := { poolFixture 3 with enable_auto_scaling := true },
          resizeCalls := [], scaleToZeroCalls := 0,
          cordoned := [], deleted := [], returnedTime := 42 } :=
  ⟨Or.inl rfl,
    precondition_skip_no_mutation dedupOrder []
      (List.replicate 999 { phase := "Queued" }) noPodsOnNode 1
      { poolFixture 3 with enable_auto_scaling := true } 42 1000 cfgFixture
      "Queued" (Or.inl rfl)⟩

/-- C9: an exception in one reconciliation-loop iteration — either
`agent_pools.get` failing or `aks_scaler` raising — is caught at the
iteration boundary (scale.py:254-255): the tick leaves the carried
`last_scaling_event_time` unchanged, and running the loop with that failed
tick prepended is the same as running it without, so the loop just
continues with the next tick. -/
theorem failed_tick_preserves_event_time
    (config_params : Config) (pod_phase : String) (scaler_start_time : Int)
    (last : Option Int) (env : TickEnv) (envs : List TickEnv)
    (hfail : env.fetch = .error () ∨
      ∃ agent_pool e, env.fetch = .ok agent_pool ∧
        aks_scaler env.setOrder env.nodes env.pods env.podsOnNode
          env.drainFuel agent_pool (last.getD scaler_start_time) env.now
          config_params pod_phase = .error e) :
    mainTick config_params pod_phase scaler_start_time last env = last ∧
    mainLoop config_params pod_phase scaler_start_time last (env :: envs) =
      mainLoop config_params pod_phase scaler_start_time last envs := by
  have h1 : mainTick config_params pod_phase scaler_start_time last env = last := by
    rcases hfail with h | ⟨agent_pool, e, hf, hs⟩
    · simp [mainTick, h]
    · simp [mainTick, hf, hs]
  exact ⟨h1, by simp [mainLoop, h1]⟩

/-- Witness for C9 at a concrete input: a tick whose agent-pool fetch
raises leaves the carried timestamp `some 5` unchanged and the loop goes
on as if the tick were not there. -/
theorem failed_tick_preserves_event_time_witness :
    mainTick cfgFixture "Queued" 0 (some 5)
      { fetch := .error (), setOrder := dedupOrder, nodes := [], pods := [],
        podsOnNode := noPodsOnNode, drainFuel := 1, now := 0 } = some 5 ∧
    mainLoop cfgFixture "Queued" 0 (some 5)
      [{ fetch := .error (), setOrder := dedupOrder, nodes := [], pods := [],
         podsOnNode := noPodsOnNode, drainFuel := 1, now := 0 }] =
      mainLoop cfgFixture "Queued" 0 (some 5) [] :=
  failed_tick_preserves_event_time cfgFixture "Queued" 0 (some 5)
    { fetch := .error (), setOrder := dedupOrder, nodes := [], pods := [],
      podsOnNode := noPodsOnNode, drainFuel := 1, now := 0 } [] (Or.inl rfl)

/-- C10: for every admissible set iteration order, a name is in
`get_nodes_in_pool`'s result exactly when some inventory node carries that
name and its `agentpool` label equals the pool's name.  In particular the
defaulting `labels.get("agentpool")` makes nodes without the key compare as
`None ≠ name` and be excluded, rather than raising a `KeyError`. -/
theorem nodes_in_pool_membership
    (setOrder : List String → List String) (hvalid : ValidSetOrder setOrder)
    (nodes : List KNode) (agent_pool : AgentPool) (name : String) :
    name ∈ get_nodes_in_pool setOrder nodes agent_pool ↔
      ∃ node ∈ nodes, node.name = name ∧
        node.labels.lookup "agentpool" = some agent_pool.name := by
  simp only [get_nodes_in_pool]
  rw [(hvalid _).2]
  rw [(List.perm_insertionSort _ _).mem_iff]
  simp only [List.mem_map, List.mem_filter, decide_eq_true_eq]
  constructor
  · rintro ⟨node, ⟨hmem, hlk⟩, hname⟩
    exact ⟨node, hmem, hname, hlk⟩
  · rintro ⟨node, hmem, hname, hlk⟩
    exact ⟨node, ⟨hmem, hlk⟩, hname⟩

/-- Witness for C10 at a concrete input: a node whose labels lack the
`agentpool` key is excluded from the result (and the lookup itself returns
`none` rather than raising). -/
theorem nodes_in_pool_membership_witness :
    ValidSetOrder dedupOrder ∧
    unlabeledNode.labels.lookup "agentpool" = none ∧
    "x" ∉ get_nodes_in_pool dedupOrder [unlabeledNode] (poolFixture 3) := by
  refine ⟨dedupOrder_valid, by decide, fun hmem => ?_⟩
  obtain ⟨node, hn, -, hlk⟩ :=
    (nodes_in_pool_membership dedupOrder dedupOrder_valid [unlabeledNode]
      (poolFixture 3) "x").mp hmem
  simp only [List.mem_singleton] at hn
  subst hn
  exact absurd hlk (by decide)

/-- Unfolding of `aks_scaler` on a tick in which the scale-down branch runs
to completion: preconditions pass, the queue is below the threshold, a
candidate was selected, the delay check passes (as the code computes it)
and the drain loop exits.  The node is cordoned and deleted, then the count
is decremented when above 1, otherwise `aks_scale_pool_to_0` is invoked. -/
lemma aks_scaler_scaleDown_run
    (setOrder : List String → List String) (nodes : List KNode)
    (pods : List KPod) (podsOnNode : String → Nat → List String)
    (drainFuel : Nat) (agent_pool : AgentPool)
    (last_scaling_event_time now : Int) (config_params : Config)
    (pod_phase : String) (node : String) (j : Nat)
    (hauto : agent_pool.enable_auto_scaling = false)
    (hprov : agent_pool.provisioning_state = "Succeeded")
    (hq : (get_number_of_pods_in_phase pods pod_phase : Int) <
      config_params.MAX_POD_QUEUE)
    (hcand : selectCandidate config_params.DEFAULT_DOWN_SCALING_STRATEGY
      (get_nodes_in_pool setOrder nodes agent_pool) = .ok (some node))
    (hdelay : tdSeconds (last_scaling_event_time - now) >
      config_params.DELAY_BEFORE_SCALE_DOWN)
    (hdrain : drainLoop (podsOnNode node) config_params.TIMEOUT drainFuel 0 =
      some j) :
    aks_scaler setOrder nodes pods podsOnNode drainFuel agent_pool
      last_scaling_event_time now config_params pod_phase =
    .ok (if agent_pool.count > 1 then
      finishScaler { agent_pool with count := agent_pool.count - 1 }
        agent_pool.count (agent_pool.count - 1) (some now)
        last_scaling_event_time 0 [node] [node]
    else
      finishScaler agent_pool agent_pool.count agent_pool.count (some now)
        last_scaling_event_time 1 [node] [node]) := by
  have hqgt : ¬ ((get_number_of_pods_in_phase pods pod_phase : Int) >
      config_params.MAX_POD_QUEUE) := by omega
  simp [aks_scaler, hauto, hprov, hqgt, hq, hcand, hdelay, hdrain]
  split <;> rfl

/-- C6: in the scale-down branch, after the node is deleted the pool count
is decremented by exactly 1 when it is strictly greater than 1; when it
equals 1 the dedicated scale-to-zero command is invoked instead and the
in-memory count stays 1, so count 0 is never produced via the decrement
path (scale.py:179-185). -/
theorem scaleDown_decrement_or_scale_to_zero
    (setOrder : List String → List String) (nodes : List KNode)
    (pods : List KPod) (podsOnNode : String → Nat → List String)
    (drainFuel : Nat) (agent_pool : AgentPool)
    (last_scaling_event_time now : Int) (config_params : Config)
    (pod_phase : String) (node : String) (j : Nat)
    (hauto : agent_pool.enable_auto_scaling = false)
    (hprov : agent_pool.provisioning_state = "Succeeded")
    (hq : (get_number_of_pods_in_phase pods pod_phase : Int) <
      config_params.MAX_POD_QUEUE)
    (hcand : selectCandidate config_params.DEFAULT_DOWN_SCALING_STRATEGY
      (get_nodes_in_pool setOrder nodes agent_pool) = .ok (some node))
    (hdelay : tdSeconds (last_scaling_event_time - now) >
      config_params.DELAY_BEFORE_SCALE_DOWN)
    (hdrain : drainLoop (podsOnNode node) config_params.TIMEOUT drainFuel 0 =
      some j) :
    ∃ r, aks_scaler setOrder nodes pods podsOnNode drainFuel agent_pool
        last_scaling_event_time now config_params pod_phase = .ok r ∧
      r.deleted = [node] ∧
      (1 < agent_pool.count →
        r.pool.count = agent_pool.count - 1 ∧ r.scaleToZeroCalls = 0 ∧
        r.pool.count ≠ 0) ∧
      (agent_pool.count = 1 →
        r.scaleToZeroCalls = 1 ∧ r.pool.count = 1) := by
  rw [aks_scaler_scaleDown_run setOrder nodes pods podsOnNode drainFuel
    agent_pool last_scaling_event_time now config_params pod_phase node j
    hauto hprov hq hcand hdelay hdrain]
  by_cases hcount : 1 < agent_pool.count
  · rw [if_pos hcount]
    exact ⟨_, rfl, rfl,
      fun _ => ⟨rfl, rfl, show agent_pool.count - 1 ≠ 0 by omega⟩,
      fun h => absurd h (by omega)⟩
  · rw [if_neg hcount]
    exact ⟨_, rfl, rfl, fun h => absurd h hcount,
      fun h => ⟨rfl, show agent_pool.count = 1 from h⟩⟩

/-- Witness for C6 at a concrete input: pool of three, one node `n1`, zero
queued pods, delay passed (`(last - now).seconds = 400 > 300`), node
drained at the first poll; the count drops from 3 to 2 with no
scale-to-zero call. -/
theorem scaleDown_decrement_or_scale_to_zero_witness :
    tdSeconds (-85000 - 1000) > cfgFixture.DELAY_BEFORE_SCALE_DOWN ∧
    ∃ r, aks_scaler dedupOrder [nodeFixture] [] noPodsOnNode 1 (poolFixture 3)
        (-85000) 1000 cfgFixture "Queued" = .ok r ∧
      r.deleted = ["n1"] ∧
      (1 < (poolFixture 3).count →
        r.pool.count = (poolFixture 3).count - 1 ∧ r.scaleToZeroCalls = 0 ∧
        r.pool.count ≠ 0) ∧
      ((poolFixture 3).count = 1 →
        r.scaleToZeroCalls = 1 ∧ r.pool.count = 1) :=
  ⟨by decide,
    scaleDown_decrement_or_scale_to_zero dedupOrder [nodeFixture] []
      noPodsOnNode 1 (poolFixture 3) (-85000) 1000 cfgFixture "Queued" "n1" 0
      rfl rfl (by decide) rfl (by decide) rfl⟩

/-- With a timeout of a full day the `.seconds` component of the elapsed
time (always in `[0, 86400)`) never reaches it, so with a pod that never
leaves the node the wait loop never exits, however many polls are
observed. -/
lemma drainLoop_day_timeout_stuck :
    ∀ fuel k, drainLoop stuckPodOnNode 86400 fuel k = none := by
  intro fuel
  induction fuel with
  | zero => intro k; rfl
  | succ fuel ih =>
    intro k
    have hk : ((k : Int) % 86400) < 86400 := Int.emod_lt_of_pos _ (by norm_num)
    simp only [drainLoop]
    rw [if_pos ⟨by simp [stuckPodOnNode], hk⟩]
    exact ih (k + 1)

/-- C7 counterexample: the claim says the drain-wait loop always terminates
once elapsed time reaches the configured `TIMEOUT`.  With `TIMEOUT = 86400`
(a one-day drain budget) and a pod that never leaves the node, the loop
never exits: the code compares `TIMEOUT` against the `.seconds` component
of the elapsed timedelta, which is always strictly below 86400. -/
theorem drain_wait_never_exits_at_day_timeout :
    ¬ ∃ fuel j, drainLoop stuckPodOnNode 86400 fuel 0 = some j := by
  rintro ⟨fuel, j, h⟩
  rw [drainLoop_day_timeout_stuck] at h
  cases h

/-- C7 (amended): whenever the scale-down branch reaches the drain wait and
the configured `TIMEOUT` is below one day (86400 seconds — in particular
for the default 60), the poll loop exits at the first iteration `k` at
which the node's pod set is empty or the elapsed seconds reach `TIMEOUT`
(so `k ≤ TIMEOUT`), and in both exit cases `delete_node` is then issued
unconditionally (scale.py:172-179). -/
theorem drain_wait_bounded_exit_then_delete
    (setOrder : List String → List String) (nodes : List KNode)
    (pods : List KPod) (podsOnNode : String → Nat → List String)
    (drainFuel : Nat) (agent_pool : AgentPool)
    (last_scaling_event_time now : Int) (config_params : Config)
    (pod_phase : String) (node : String)
    (hauto : agent_pool.enable_auto_scaling = false)
    (hprov : agent_pool.provisioning_state = "Succeeded")
    (hq : (get_number_of_pods_in_phase pods pod_phase : Int) <
      config_params.MAX_POD_QUEUE)
    (hcand : selectCandidate config_params.DEFAULT_DOWN_SCALING_STRATEGY
      (get_nodes_in_pool setOrder nodes agent_pool) = .ok (some node))
    (hdelay : tdSeconds (last_scaling_event_time - now) >
      config_params.DELAY_BEFORE_SCALE_DOWN)
    (htmo : config_params.TIMEOUT < 86400)
    (hfuel : config_params.TIMEOUT.toNat < drainFuel) :
    ∃ k, drainLoop (podsOnNode node) config_params.TIMEOUT drainFuel 0 =
        some k ∧
      k ≤ config_params.TIMEOUT.toNat ∧
      ((podsOnNode node k).length = 0 ∨
        config_params.TIMEOUT ≤ (k : Int) % 86400) ∧
      (∀ i < k, (podsOnNode node i).length > 0 ∧
        ((i : Int) % 86400) < config_params.TIMEOUT) ∧
      ∃ r, aks_scaler setOrder nodes pods podsOnNode drainFuel agent_pool
          last_scaling_event_time now config_params pod_phase = .ok r ∧
        r.cordoned = [node] ∧ r.deleted = [node] := by
  obtain ⟨k, hk, -, hkt, hstop, hmin⟩ :=
    drainLoop_exits (podsOnNode node) config_params.TIMEOUT htmo drainFuel 0
      (Nat.zero_le _) (by omega)
  refine ⟨k, hk, hkt, ?_, fun i hi => hmin i (Nat.zero_le _) hi, ?_⟩
  · by_cases hp : (podsOnNode node k).length = 0
    · exact Or.inl hp
    · refine Or.inr ?_
      by_contra hlt
      exact hstop ⟨by omega, by omega⟩
  · rw [aks_scaler_scaleDown_run setOrder nodes pods podsOnNode drainFuel
      agent_pool last_scaling_event_time now config_params pod_phase node k
      hauto hprov hq hcand hdelay hk]
    by_cases hcount : 1 < agent_pool.count
    · rw [if_pos hcount]
      exact ⟨_, rfl, rfl, rfl⟩
    · rw [if_neg hcount]
      exact ⟨_, rfl, rfl, rfl⟩

/-- Witness for C7 at a concrete input: one node `n1`, no pods on it, the
default 60-second timeout and 61 polls of fuel — the loop exits and the
node is cordoned and deleted. -/
theorem drain_wait_bounded_exit_then_delete_witness :
    cfgFixture.TIMEOUT < 86400 ∧
    ∃ k, drainLoop (noPodsOnNode "n1") cfgFixture.TIMEOUT 61 0 = some k ∧
      k ≤ cfgFixture.TIMEOUT.toNat ∧
      ((noPodsOnNode "n1" k).length = 0 ∨
        cfgFixture.TIMEOUT ≤ (k : Int) % 86400) ∧
      (∀ i < k, (noPodsOnNode "n1" i).length > 0 ∧
        ((i : Int) % 86400) < cfgFixture.TIMEOUT) ∧
      ∃ r, aks_scaler dedupOrder [nodeFixture] [] noPodsOnNode 61
          (poolFixture 3) (-85000) 1000 cfgFixture "Queued" = .ok r ∧
        r.cordoned = ["n1"] ∧ r.deleted = ["n1"] :=
  ⟨by decide,
    drain_wait_bounded_exit_then_delete dedupOrder [nodeFixture] []
      noPodsOnNode 61 (poolFixture 3) (-85000) 1000 cfgFixture "Queued" "n1"
      rfl rfl (by decide) rfl (by decide) (by decide) (by decide)⟩

/-- C4 (amended): on every normally-returning evaluation, the generic
`create_or_update` is submitted exactly when the in-memory pool count after
evaluation differs from the pre-scale count, and it carries that
post-evaluation count; when the scale-to-zero path was taken the in-memory
count was left equal to the pre-scale count, so no generic update follows
it — the zero target is carried only by the dedicated scale-to-zero
command (scale.py:181-196). -/
theorem resize_submitted_iff_count_changed
    (setOrder : List String → List String) (nodes : List KNode)
    (pods : List KPod) (podsOnNode : String → Nat → List String)
    (drainFuel : Nat) (agent_pool : AgentPool)
    (last_scaling_event_time now : Int) (config_params : Config)
    (pod_phase : String) (r : ScalerResult)
    (hr : aks_scaler setOrder nodes pods podsOnNode drainFuel agent_pool
      last_scaling_event_time now config_params pod_phase = .ok r) :
    (r.pool.count ≠ agent_pool.count → r.resizeCalls = [r.pool.count]) ∧
    (r.pool.count = agent_pool.count → r.resizeCalls = []) ∧
    (r.scaleToZeroCalls ≠ 0 →
      r.pool.count = agent_pool.count ∧ r.resizeCalls = []) := by
  simp only [aks_scaler] at hr
  repeat' split at hr
  all_goals simp only [Except.ok.injEq, reduceCtorEq] at hr
  all_goals subst hr
  all_goals
    refine ⟨fun h1 => ?_, fun h2 => ?_, fun h3 => ?_⟩ <;>
      simp only [finishScaler] at * <;>
      first
        | (exact absurd rfl h1)
        | (exact absurd rfl h3)
        | (exact absurd h2 (by omega))
        | (rw [if_pos (show _ ≠ _ by omega)])
        | simp

/-- Witness for C4 at a concrete input: the scale-up run from three to four
nodes submits exactly one `create_or_update` carrying the new count 4. -/
theorem resize_submitted_iff_count_changed_witness :
    (upscaleRunResult.pool.count ≠ (poolFixture 3).count →
      upscaleRunResult.resizeCalls = [upscaleRunResult.pool.count]) ∧
    (upscaleRunResult.pool.count = (poolFixture 3).count →
      upscaleRunResult.resizeCalls = []) ∧
    (upscaleRunResult.scaleToZeroCalls ≠ 0 →
      upscaleRunResult.pool.count = (poolFixture 3).count ∧
      upscaleRunResult.resizeCalls = []) :=
  resize_submitted_iff_count_changed dedupOrder [] queuedPodsFixture
    noPodsOnNode 1 (poolFixture 3) 950 1000 cfgFixture "Queued"
    upscaleRunResult rfl
